import Mathlib

set_option linter.unusedVariables false

/-!
Shallow embedding of `src/TcpSocket.js` (react-native-tcp): the socket
lifecycle state machine, client-side id allocation, `connect` option
validation, the write path, `end`/`destroy` teardown and the idle timeout.

Machine-level conventions of the embedding:
* JavaScript numbers that the claims touch are integer valued, so they are
  modelled as `Int`; the `>>> 0` and `| 0` coercions become explicit
  `emod 2^32` arithmetic.
* Calls that `throw` are modelled with `Except JsError`.
* Commands sent to the native module (`Sockets.createSocket`, `.connect`,
  `.write`, `.end`, `.destroy`) are collected in an output list `List Cmd`.
* Emitted events (`this.emit(...)`) are collected in an output list
  `List Notif`.
* `Math.random`-driven draws are an explicit stream `draws : Nat → Nat`,
  and the unbounded `while` loop of the constructor is run on explicit
  fuel, `none` meaning "still looping after that many retries".
-/

/-- A JavaScript value as far as the option fields of `connect` are
concerned: a number (restricted to integer values), a string, `undefined`,
or any other value (object, boolean, null, ...). -/
inductive JSVal where
  | num (n : Int)
  | str (s : String)
  | undefined
  | other
  deriving DecidableEq

/-- JavaScript truthiness for the values of `JSVal`: `0`, the empty string
and `undefined` are falsy; objects are truthy. -/
def jsTruthy : JSVal → Bool
  | JSVal.num n => n != 0
  | JSVal.str s => s != ""
  | JSVal.undefined => false
  | JSVal.other => true

/-- Value of a non-empty list of decimal digits; `none` if any character is
not a digit or the list is empty. -/
def digitsVal (cs : List Char) : Option Nat :=
  match cs with
  | [] => none
  | _ => cs.foldl
      (fun acc c =>
        match acc with
        | none => none
        | some n => if c.isDigit then some (n * 10 + (c.toNat - 48)) else none)
      (some 0)

/-- The characters of `s.trim()`: leading and trailing whitespace
removed. -/
def jsTrimmed (s : String) : List Char :=
  ((s.toList.dropWhile Char.isWhitespace).reverse.dropWhile
    Char.isWhitespace).reverse

/-- Integer-literal subset of the JavaScript `ToNumber` coercion on
strings: trim whitespace, map the empty string to `0`, parse an optional
sign followed by decimal digits; everything else is NaN (`none`). -/
def jsStringToNumber (s : String) : Option Int :=
  match jsTrimmed s with
  | [] => some 0
  | '-' :: rest => (digitsVal rest).map (fun n => -(n : Int))
  | '+' :: rest => (digitsVal rest).map (fun n => (n : Int))
  | cs => (digitsVal cs).map (fun n => (n : Int))

/-- JavaScript `ToNumber` on a `JSVal`; `none` is NaN. -/
def jsToNumber : JSVal → Option Int
  | JSVal.num n => some n
  | JSVal.str s => jsStringToNumber s
  | JSVal.undefined => none
  | JSVal.other => none

/-- JavaScript `x >>> 0` on an integer value: `ToUint32`. -/
def toUint32 (n : Int) : Int := n % 4294967296

/-- JavaScript `x | 0` on an integer value: `ToInt32`. -/
def toInt32 (n : Int) : Int :=
  let m := n % 4294967296
  if m < 2147483648 then m else m - 4294967296

/-- `isLegalPort` from `src/TcpSocket.js`: a string consisting only of
whitespace is rejected outright; otherwise `+port === (port >>> 0) &&
port >= 0 && port <= 0xFFFF`, where on a string both sides coerce through
`ToNumber` and a NaN comparison is false. -/
def isLegalPort : JSVal → Bool
  | JSVal.num n =>
      decide (n = toUint32 n) && decide (0 ≤ n) && decide (n ≤ 65535)
  | JSVal.str s =>
      if jsTrimmed s = [] then false
      else
        match jsStringToNumber s with
        | none => false
        | some n =>
            decide (n = toUint32 n) && decide (0 ≤ n) && decide (n ≤ 65535)
  | _ => false

/-- The spec's wording of port legality, for comparison with the source's
`isLegalPort`: non-empty, coerces to a non-negative integer at most
65535. -/
def legalPortSpec : JSVal → Bool
  | JSVal.num n => decide (0 ≤ n) && decide (n ≤ 65535)
  | JSVal.str s =>
      if jsTrimmed s = [] then false
      else
        match jsStringToNumber s with
        | none => false
        | some n => decide (0 ≤ n) && decide (n ≤ 65535)
  | _ => false

/-- Connection state constants `STATE.DISCONNECTED / CONNECTING /
CONNECTED`. -/
inductive ConnState where
  | disconnected
  | connecting
  | connected
  deriving DecidableEq

/-- The synchronous errors `TcpSocket` can throw:
`alreadyBound` = `Error('Socket is already bound')`,
`localAddressInvalid` / `localPortNotNumber` / `portTypeError` =
the three `TypeError`s of `connect`,
`portRangeError` = `RangeError('"port" option should be >= 0 and < 65536')`,
`notConnected` = `Error('Socket is not connected.')`,
`invalidFormat` = `Error('invalid message format')`. -/
inductive JsError where
  | alreadyBound
  | localAddressInvalid
  | localPortNotNumber
  | portTypeError
  | portRangeError
  | notConnected
  | invalidFormat
  deriving DecidableEq

/-- A command issued to the native module `Sockets`. -/
inductive Cmd where
  | createSocket (id : Nat)
  | connect (id : Nat) (host : String) (port : Int)
  | write (id : Nat) (payload : String)
  | endCmd (id : Nat)
  | destroy (id : Nat)
  deriving DecidableEq

/-- An event emitted by the socket to its consumer
(`this.emit(info.event, info.data)` plus the timeout emission). -/
inductive Notif where
  | connect
  | data (bytes : List Nat)
  | close
  | error (msg : String)
  | timeout
  deriving DecidableEq

/-- One `TcpSocket` handle. `timerArmed` models `this._timeout` being a
live timer handle, `subscribed` models `this._subscription` still being
registered with the device event emitter, and `onceTimeout` counts the
one-shot `timeout` listeners registered through `setTimeout`. -/
structure Socket where
  id : Nat
  state : ConnState
  readable : Bool
  writable : Bool
  destroyed : Bool
  timerArmed : Bool
  subscribed : Bool
  onceTimeout : Nat
  remoteAddress : Option String
  remotePort : Option Int
  remoteFamily : Option String
  deriving DecidableEq

/-- Constructor outcome for a JavaScript-created socket (no `options.id`):
state ends up `DISCONNECTED`, `readable = writable = false`, the handle is
subscribed, and a `createSocket` command is issued. -/
def mkClientSocket (id : Nat) : Socket × List Cmd :=
  ({ id := id
     state := ConnState.disconnected
     readable := false
     writable := false
     destroyed := false
     timerArmed := false
     subscribed := true
     onceTimeout := 0
     remoteAddress := none
     remotePort := none
     remoteFamily := none },
   [Cmd.createSocket id])

/-- Constructor outcome for a native-created socket (`options.id` given,
range 5000-6000): state stays `CONNECTED`, no `createSocket` command. -/
def mkNativeSocket (id : Nat) : Socket × List Cmd :=
  ({ id := id
     state := ConnState.connected
     readable := false
     writable := false
     destroyed := false
     timerArmed := false
     subscribed := true
     onceTimeout := 0
     remoteAddress := none
     remotePort := none
     remoteFamily := none },
   [])

/-- The id-drawing loop of the constructor:
`this._id = Math.floor((Math.random() * 1000) + 1);
 while (usedIds.indexOf(this._id) !== -1) { this._id = ... }`.
`draws k` is the value of the `k`-th `Math.floor(Math.random()*1000)+1`
draw; the loop is run on explicit fuel and `none` means the loop has not
terminated within `fuel` draws.  The source has no retry bound and no
failure result: the only way out of the loop is a draw outside
`used`. -/
def allocateId (draws : Nat → Nat) (used : List Nat) : Nat → Nat → Option Nat
  | _, 0 => none
  | k, fuel + 1 =>
      let id := draws k
      if used.contains id then allocateId draws used (k + 1) fuel else some id

/-- Process-wide state: the module-level `usedIds` array. -/
structure ProcState where
  usedIds : List Nat
  deriving DecidableEq

/-- Constructing a JavaScript-created socket at process level: draw an id
with the retry loop, then `usedIds.push(this._id)`. `none` when the draw
loop has not terminated within `fuel` draws. -/
def createClient (p : ProcState) (draws : Nat → Nat) (fuel : Nat) :
    Option (ProcState × Socket × List Cmd) :=
  match allocateId draws p.usedIds 0 fuel with
  | none => none
  | some id => some ({ usedIds := p.usedIds ++ [id] }, mkClientSocket id)

/-- The base64 alphabet, as in `base64-js`. -/
def b64Char (n : Nat) : Char :=
  ("ABCDEFGHIJKLMNOPQRSTUVWXYZabcdefghijklmnopqrstuvwxyz0123456789+/".toList).getD n 'A'

/-- Standard base64 encoding of a byte list (the behaviour of
`base64.fromByteArray` and of `Buffer.prototype.toString('base64')`). -/
def base64Encode : List Nat → String
  | a :: b :: c :: rest =>
      let x := (a % 256) * 65536 + (b % 256) * 256 + c % 256
      (String.mk [b64Char (x / 262144), b64Char (x / 4096 % 64),
        b64Char (x / 64 % 64), b64Char (x % 64)]) ++ base64Encode rest
  | [a, b] =>
      let x := (a % 256) * 65536 + (b % 256) * 256
      String.mk [b64Char (x / 262144), b64Char (x / 4096 % 64),
        b64Char (x / 64 % 64), '=']
  | [a] =>
      let x := (a % 256) * 65536
      String.mk [b64Char (x / 262144), b64Char (x / 4096 % 64), '=', '=']
  | [] => ""

/-- Position of a character in a list, or `none`. -/
def charIndex (c : Char) : List Char → Nat → Option Nat
  | [], _ => none
  | x :: xs, k => if x = c then some k else charIndex c xs (k + 1)

/-- Value of one base64 alphabet character; `=` padding and any other
character yield `none` and are skipped by the decoder. -/
def b64Val (c : Char) : Option Nat :=
  charIndex c ("ABCDEFGHIJKLMNOPQRSTUVWXYZabcdefghijklmnopqrstuvwxyz0123456789+/".toList) 0

/-- Decode a list of 6-bit values back into bytes. -/
def base64DecodeVals : List Nat → List Nat
  | a :: b :: c :: d :: rest =>
      (a * 4 + b / 16) :: (b % 16 * 16 + c / 4) :: (c % 4 * 64 + d) ::
        base64DecodeVals rest
  | [a, b, c] => [a * 4 + b / 16, b % 16 * 16 + c / 4]
  | [a, b] => [a * 4 + b / 16]
  | _ => []

/-- Base64 decoding of a string into bytes (the behaviour of
`base64.toByteArray` / `Buffer(s, 'base64')` on well-formed input). -/
def base64Decode (s : String) : List Nat :=
  base64DecodeVals (s.toList.filterMap b64Val)

/-- UTF-8 encoding of one Unicode code point. -/
def utf8Enc (c : Nat) : List Nat :=
  if c < 128 then [c]
  else if c < 2048 then [192 + c / 64, 128 + c % 64]
  else if c < 65536 then [224 + c / 4096, 128 + c / 64 % 64, 128 + c % 64]
  else [240 + c / 262144, 128 + c / 4096 % 64, 128 + c / 64 % 64, 128 + c % 64]

/-- The bytes of a string under UTF-8. -/
def strBytes (s : String) : List Nat :=
  (s.toList.map (fun c => utf8Enc c.toNat)).flatten

/-- Modelled from the spec: `Base64Str.encode` comes from the repository
file `./base64-str`, which is not under `src/`; the spec describes it as a
"text -> bytes -> wire-safe-string codec", modelled here as base64 over the
UTF-8 bytes of the string. -/
def base64StrEncode (s : String) : String := base64Encode (strBytes s)

/-- The argument of `write`: a string, a `Buffer`, a `Uint8Array`/`Array`
of byte values, or anything else. -/
inductive Payload where
  | str (s : String)
  | buffer (bytes : List Nat)
  | byteArray (bytes : List Nat)
  | other
  deriving DecidableEq

/-- JavaScript truthiness of a `write`/`end` payload: only the empty
string is falsy among the modelled values (buffers and arrays are
objects, hence truthy). -/
def payloadTruthy : Payload → Bool
  | Payload.str s => s != ""
  | _ => true

/-- The encoding branch of `write`: strings through `Base64Str.encode`,
buffers through `toString('base64')`, `Uint8Array`/`Array` through
`base64.fromByteArray`; anything else throws
`Error('invalid message format')` (`none` here). -/
def encodePayload : Payload → Option String
  | Payload.str s => some (base64StrEncode s)
  | Payload.buffer bs => some (base64Encode bs)
  | Payload.byteArray bs => some (base64Encode bs)
  | Payload.other => none

/-- `TcpSocket.prototype.write`: throws when `DISCONNECTED`, accepts in
`CONNECTING` (the native layer queues internally) and `CONNECTED`; encodes
the payload and issues one `Sockets.write` command; returns `true`.  The
socket's own fields are not changed synchronously (the ack callback that
later clears the idle timer is asynchronous and outside this step). -/
def Socket.write (s : Socket) (p : Payload) :
    Except JsError (Socket × List Cmd × Bool) :=
  if s.state = ConnState.disconnected then Except.error JsError.notConnected
  else
    match encodePayload p with
    | none => Except.error JsError.invalidFormat
    | some enc => Except.ok (s, [Cmd.write s.id enc], true)

/-- The options record of `connect`. `host` is a string or absent
(`options.host || 'localhost'` also defaults the empty string). -/
structure ConnectOptions where
  port : JSVal
  host : Option String
  localAddress : JSVal
  localPort : JSVal
  deriving DecidableEq

/-- One dotted-quad part: digits only, value 0-255, no leading zero. -/
def ipv4Part (t : String) : Bool :=
  t != "" && t.toList.all Char.isDigit && t.length ≤ 3 &&
    (t = "0" || (t.toList.headD '0' != '0' && (t.toNat?.getD 256) ≤ 255))

/-- Model of the external `ip-regex` dependency used on `localAddress`
(`ipRegex({exact: true}).test(...)`), restricted to IPv4 dotted quads; no
claim depends on this validator. -/
def isValidIPv4 (s : String) : Bool :=
  (s.splitOn ".").length = 4 && (s.splitOn ".").all ipv4Part

/-- `ipRegex.test` applied to a `JSVal` (the regex test coerces its
argument to a string; non-string option values never form an IP
literal). -/
def isIPLiteral : JSVal → Bool
  | JSVal.str s => isValidIPv4 s
  | _ => false

/-- `typeof x === 'number'`. -/
def isNumberVal : JSVal → Bool
  | JSVal.num _ => true
  | _ => false

/-- `typeof x === 'number' || typeof x === 'string'`. -/
def isNumOrStr : JSVal → Bool
  | JSVal.num _ => true
  | JSVal.str _ => true
  | _ => false

/-- The port number passed to `Sockets.connect`: the source does
`port |= port` (ToInt32, with NaN and `undefined` becoming 0) and then
`Number(port)`. -/
def portForCmd (p : JSVal) : Int := toInt32 ((jsToNumber p).getD 0)

/-- The defaulted host: `options.host || 'localhost'`. -/
def hostOf (opts : ConnectOptions) : String :=
  match opts.host with
  | some h => if h = "" then "localhost" else h
  | none => "localhost"

/-- `TcpSocket.prototype.connect`: throws `'Socket is already bound'`
unless `DISCONNECTED`; validates `localAddress`, `localPort` and `port` in
source order; on success moves to `CONNECTING` and issues one
`Sockets.connect` command tagged with this handle's id.  (The source also
registers `callback` as a one-shot `connect` listener before validating;
listener bookkeeping for `connect` is not modelled, no claim depends on
it.) -/
def Socket.connect (s : Socket) (opts : ConnectOptions) :
    Except JsError (Socket × List Cmd) :=
  if s.state ≠ ConnState.disconnected then Except.error JsError.alreadyBound
  else if jsTruthy opts.localAddress && !isIPLiteral opts.localAddress then
    Except.error JsError.localAddressInvalid
  else if jsTruthy opts.localPort && !isNumberVal opts.localPort then
    Except.error JsError.localPortNotNumber
  else if opts.port ≠ JSVal.undefined && !isNumOrStr opts.port then
    Except.error JsError.portTypeError
  else if opts.port ≠ JSVal.undefined && !isLegalPort opts.port then
    Except.error JsError.portRangeError
  else
    Except.ok ({ s with state := ConnState.connecting },
      [Cmd.connect s.id (hostOf opts) (portForCmd opts.port)])

/-- `TcpSocket.prototype.destroy`: guarded by `!this._destroyed`; marks
destroyed, removes the subscription, issues one `Sockets.destroy`
command.  Already destroyed: nothing at all. -/
def Socket.destroy (s : Socket) : Socket × List Cmd :=
  if s.destroyed then (s, [])
  else ({ s with destroyed := true, subscribed := false }, [Cmd.destroy s.id])

/-- `TcpSocket.prototype.end`: no-op when already destroyed; otherwise
`if (data) this.write(data, encoding)` (a falsy payload skips the write,
and a throwing write propagates), then marks destroyed, removes the
subscription, and issues one `Sockets.end` command. -/
def Socket.«end» (s : Socket) (data : Option Payload) :
    Except JsError (Socket × List Cmd) :=
  if s.destroyed then Except.ok (s, [])
  else
    match data with
    | some d =>
        if payloadTruthy d then
          match s.write d with
          | Except.error e => Except.error e
          | Except.ok (s1, wcmds, _) =>
              Except.ok ({ s1 with destroyed := true, subscribed := false },
                wcmds ++ [Cmd.endCmd s1.id])
        else
          Except.ok ({ s with destroyed := true, subscribed := false },
            [Cmd.endCmd s.id])
    | none =>
        Except.ok ({ s with destroyed := true, subscribed := false },
          [Cmd.endCmd s.id])

/-- `TcpSocket.prototype.setTimeout`: always clears a live timer; when
`msecs > 0` registers `callback` (if supplied) as a one-shot `timeout`
listener and arms a fresh timer. -/
def Socket.setTimeout (s : Socket) (msecs : Int) (cb : Bool) : Socket :=
  let s0 := { s with timerArmed := false }
  if 0 < msecs then
    let s1 := if cb then { s0 with onceTimeout := s0.onceTimeout + 1 } else s0
    { s1 with timerArmed := true }
  else s0

/-- The body of the timer callback armed by `setTimeout`: emits
`'timeout'` (consuming the one-shot listeners), nulls `this._timeout`, and
calls `destroy()`.  The surrounding `if` models the JavaScript runtime
guarantee that a timer cancelled with `clearTimeout` (or never armed) does
not run its callback. -/
def Socket.timerFire (s : Socket) : Socket × List Cmd × List Notif :=
  if s.timerArmed then
    let s1 := { s with onceTimeout := 0, timerArmed := false }
    let d := s1.destroy
    (d.1, d.2, [Notif.timeout])
  else (s, [], [])

/-- An event arriving on this handle's device-event topic. -/
inductive TcpEvent where
  | connect (address : String) (port : Int) (family : String)
  | data (b64 : String)
  | close
  | error (msg : String)
  deriving DecidableEq

/-- `TcpSocket.prototype._onEvent`: `connect` sets
`writable = readable = true`, moves to `CONNECTED` and records the remote
address/port/family; `data` clears a live idle timer and decodes the
base64 payload; `close` moves to `DISCONNECTED` (touching nothing else);
every event is re-emitted to the consumer. -/
def Socket.onEvent (s : Socket) (e : TcpEvent) : Socket × List Notif :=
  match e with
  | TcpEvent.connect a p f =>
      ({ s with
          writable := true
          readable := true
          state := ConnState.connected
          remoteAddress := some a
          remotePort := some p
          remoteFamily := some f },
       [Notif.connect])
  | TcpEvent.data b64 =>
      ({ s with timerArmed := false }, [Notif.data (base64Decode b64)])
  | TcpEvent.close =>
      ({ s with state := ConnState.disconnected }, [Notif.close])
  | TcpEvent.error m => (s, [Notif.error m])

/-- `destroy` at process level: the source's `destroy` never touches the
module-level `usedIds` array. -/
def destroyProc (p : ProcState) (s : Socket) :
    ProcState × Socket × List Cmd :=
  (p, s.destroy)

/-- `end` at process level: the source's `end` never touches the
module-level `usedIds` array. -/
def endProc (p : ProcState) (s : Socket) (data : Option Payload) :
    Except JsError (ProcState × Socket × List Cmd) :=
  match s.«end» data with
  | Except.error e => Except.error e
  | Except.ok r => Except.ok (p, r)

/-! Theorems.  `sock0` is a freshly constructed JavaScript-created handle,
`connSock` one that has additionally received its `connect` event. -/

/-- A freshly constructed client handle with id 1. -/
def sock0 : Socket := (mkClientSocket 1).1

/-- `sock0` after its `connect` event. -/
def connSock : Socket := (sock0.onEvent (TcpEvent.connect "127.0.0.1" 80 "IPv4")).1

/-- Connect options carrying only a port. -/
def optsWithPort (p : JSVal) : ConnectOptions :=
  { port := p, host := none, localAddress := JSVal.undefined, localPort := JSVal.undefined }

/-- The full client id range 1..1000. -/
def allClientIds : List Nat := List.range' 1 1000

/-- When every draw collides with the used set, the constructor's id loop
makes no progress: it is `none` (still looping) at every fuel. -/
lemma allocateId_stuck (draws : Nat → Nat) (used : List Nat)
    (hd : ∀ k, draws k ∈ used) :
    ∀ k fuel, allocateId draws used k fuel = none := by
  intro k fuel
  induction fuel generalizing k with
  | zero => rfl
  | succ n ih =>
      have h1 : used.contains (draws k) = true := List.elem_eq_true_of_mem (hd k)
      simp only [allocateId, h1, if_true]
      exact ih (k + 1)

/-- A `write` that returns `ok` leaves the socket exactly as it was (the
socket is only mutated later, by the asynchronous ack callback). -/
lemma write_ok_eq (s : Socket) (p : Payload) (r : Socket × List Cmd × Bool)
    (h : s.write p = Except.ok r) : r.1 = s := by
  unfold Socket.write at h
  split at h
  · exact absurd h (by simp)
  · split at h
    · exact absurd h (by simp)
    · simp only [Except.ok.injEq] at h
      rw [← h]

/-- An `end` that returns `ok` changes at most `destroyed` and
`subscribed`: every other field survives. -/
lemma end_ok_frame (s : Socket) (d : Option Payload) (s1 : Socket)
    (cmds : List Cmd) (h : s.«end» d = Except.ok (s1, cmds)) :
    s1.id = s.id ∧ s1.state = s.state ∧ s1.readable = s.readable
    ∧ s1.writable = s.writable ∧ s1.timerArmed = s.timerArmed
    ∧ s1.onceTimeout = s.onceTimeout ∧ s1.remoteAddress = s.remoteAddress
    ∧ s1.remotePort = s.remotePort ∧ s1.remoteFamily = s.remoteFamily := by
  by_cases hd : s.destroyed = true
  · unfold Socket.«end» at h
    rw [if_pos hd] at h
    simp only [Except.ok.injEq, Prod.mk.injEq] at h
    rw [← h.1]
    exact ⟨rfl, rfl, rfl, rfl, rfl, rfl, rfl, rfl, rfl⟩
  · unfold Socket.«end» at h
    rw [if_neg hd] at h
    cases d with
    | none =>
        simp only [Except.ok.injEq, Prod.mk.injEq] at h
        rw [← h.1]
        exact ⟨rfl, rfl, rfl, rfl, rfl, rfl, rfl, rfl, rfl⟩
    | some pl =>
        by_cases ht : payloadTruthy pl
        · simp only [ht, if_true] at h
          cases hw : s.write pl with
          | error e =>
              rw [hw] at h
              exact absurd h (by simp)
          | ok r =>
              have hr : r.1 = s := write_ok_eq s pl r hw
              obtain ⟨r1, wcmds, b⟩ := r
              rw [hw] at h
              have hr1 : r1 = s := hr
              subst hr1
              simp only [Except.ok.injEq, Prod.mk.injEq] at h
              rw [← h.1]
              exact ⟨rfl, rfl, rfl, rfl, rfl, rfl, rfl, rfl, rfl⟩
        · simp only [ht, Bool.false_eq_true, if_false] at h
          simp only [Except.ok.injEq, Prod.mk.injEq] at h
          rw [← h.1]
          exact ⟨rfl, rfl, rfl, rfl, rfl, rfl, rfl, rfl, rfl⟩

/-- The source's `isLegalPort` computes exactly the spec's port-legality
predicate: the extra `+port === (port >>> 0)` conjunct is subsumed by
`0 ≤ n ≤ 65535` on integer values. -/
lemma isLegalPort_eq_legalPortSpec (v : JSVal) :
    isLegalPort v = legalPortSpec v := by
  cases v with
  | num n =>
      simp only [isLegalPort, legalPortSpec, toUint32]
      rw [show (decide (n = n % 4294967296) && decide (0 ≤ n) && decide (n ≤ 65535))
            = decide ((n = n % 4294967296 ∧ 0 ≤ n) ∧ n ≤ 65535) by
          rw [Bool.decide_and, Bool.decide_and],
        show (decide (0 ≤ n) && decide (n ≤ 65535)) = decide (0 ≤ n ∧ n ≤ 65535) by
          rw [Bool.decide_and]]
      rw [decide_eq_decide]
      omega
  | str s =>
      simp only [isLegalPort, legalPortSpec, toUint32]
      by_cases ht : jsTrimmed s = []
      · simp [ht]
      · simp only [ht, if_false, if_neg ht]
        cases h : jsStringToNumber s with
        | none => rfl
        | some n =>
            dsimp only
            rw [show (decide (n = n % 4294967296) && decide (0 ≤ n) && decide (n ≤ 65535))
                  = decide ((n = n % 4294967296 ∧ 0 ≤ n) ∧ n ≤ 65535) by
                rw [Bool.decide_and, Bool.decide_and],
              show (decide (0 ≤ n) && decide (n ≤ 65535)) = decide (0 ≤ n ∧ n ≤ 65535) by
                rw [Bool.decide_and]]
            rw [decide_eq_decide]
            omega
  | undefined => rfl
  | other => rfl

/-- C1 (counterexample): `connect` with `port = "abc"` throws the
`RangeError` subkind (`'"port" option should be >= 0 and < 65536'`), not
the `TypeError` subkind — `"abc"` is a string, so it passes the
`typeof` check and fails only `isLegalPort`. -/
theorem connect_port_abc_range_not_type :
    sock0.connect (optsWithPort (JSVal.str "abc")) = Except.error JsError.portRangeError
    ∧ JsError.portRangeError ≠ JsError.portTypeError :=
  ⟨rfl, by decide⟩

/-- C1 (amended): with a disconnected handle and passing
`localAddress`/`localPort` checks — a port that is neither a number nor a
string fails with the type-error subkind; a number-or-string port that
does not coerce to a non-negative integer at most 65535 (including
`"abc"`, the empty and the whitespace-only string, and 65536) fails with
the range subkind; a legal port (80 and `"80"` among them) passes
validation and `connect` succeeds. -/
theorem connect_port_validation (s : Socket) (opts : ConnectOptions)
    (hs : s.state = ConnState.disconnected)
    (hla : (jsTruthy opts.localAddress && !isIPLiteral opts.localAddress) = false)
    (hlp : (jsTruthy opts.localPort && !isNumberVal opts.localPort) = false) :
    (opts.port ≠ JSVal.undefined → isNumOrStr opts.port = false →
        s.connect opts = Except.error JsError.portTypeError)
    ∧ (isNumOrStr opts.port = true → legalPortSpec opts.port = false →
        s.connect opts = Except.error JsError.portRangeError)
    ∧ (isNumOrStr opts.port = true → legalPortSpec opts.port = true →
        s.connect opts =
          Except.ok ({ s with state := ConnState.connecting },
            [Cmd.connect s.id (hostOf opts) (portForCmd opts.port)]))
    ∧ (legalPortSpec (JSVal.num 80) = true ∧ legalPortSpec (JSVal.str "80") = true
        ∧ legalPortSpec (JSVal.num 65536) = false
        ∧ legalPortSpec (JSVal.str "abc") = false
        ∧ legalPortSpec (JSVal.str "") = false
        ∧ legalPortSpec (JSVal.str " ") = false) := by
  refine ⟨?_, ?_, ?_, by decide⟩
  · intro hne htype
    simp [Socket.connect, hs, hla, hlp, hne, htype]
  · intro hnum hlegal
    have hne : opts.port ≠ JSVal.undefined := by
      intro h
      rw [h] at hnum
      simp [isNumOrStr] at hnum
    have hport : isLegalPort opts.port = false := by
      rw [isLegalPort_eq_legalPortSpec, hlegal]
    simp [Socket.connect, hs, hla, hlp, hne, hnum, hport]
  · intro hnum hlegal
    have hne : opts.port ≠ JSVal.undefined := by
      intro h
      rw [h] at hnum
      simp [isNumOrStr] at hnum
    have hport : isLegalPort opts.port = true := by
      rw [isLegalPort_eq_legalPortSpec, hlegal]
    simp [Socket.connect, hs, hla, hlp, hne, hnum, hport]

/-- C1 (witness): the amended theorem applied to a fresh handle and each
of the test ports of the claim. -/
theorem connect_port_validation_witness :
    sock0.connect (optsWithPort (JSVal.num 65536)) = Except.error JsError.portRangeError
    ∧ sock0.connect (optsWithPort (JSVal.num 80)) =
        Except.ok ({ sock0 with state := ConnState.connecting },
          [Cmd.connect 1 "localhost" 80])
    ∧ sock0.connect (optsWithPort JSVal.other) = Except.error JsError.portTypeError :=
  ⟨(connect_port_validation sock0 (optsWithPort (JSVal.num 65536)) rfl rfl rfl).2.1
      rfl rfl,
   (connect_port_validation sock0 (optsWithPort (JSVal.num 80)) rfl rfl rfl).2.2.1
      rfl rfl,
   (connect_port_validation sock0 (optsWithPort JSVal.other) rfl rfl rfl).1
      (by decide) rfl⟩

/-- C2 (counterexample): with every client id 1..1000 already in use,
after 2000 retries (twice the size of the range) the allocation loop has
produced neither an id nor any failure value — the source's `while` loop
has no retry bound and no ResourceExhausted error, its only exit is a
free draw. -/
theorem allocateId_exhausted_no_failure :
    allocateId (fun _ => 1) allClientIds 0 2000 = none := by
  have h : (1 : Nat) ∈ allClientIds := by decide
  exact allocateId_stuck (fun _ => 1) allClientIds (fun _ => h) 0 2000

/-- C2 (amended): when the client range is exhausted — every draw lands on
an id already in the used set — the constructor's allocation loop never
terminates: for every retry bound it is still looping, and it never
produces a ResourceExhausted (or any other) failure result. -/
theorem allocateId_exhausted_loops_forever (draws : Nat → Nat)
    (used : List Nat) (hd : ∀ k, draws k ∈ used) (k fuel : Nat) :
    allocateId draws used k fuel = none :=
  allocateId_stuck draws used hd k fuel

/-- C2 (witness): the amended theorem at the fully used client range with
a constant draw. -/
theorem allocateId_exhausted_loops_forever_witness :
    allocateId (fun _ => 2) allClientIds 0 1234 = none := by
  have h : (2 : Nat) ∈ allClientIds := by decide
  exact allocateId_exhausted_loops_forever (fun _ => 2) allClientIds (fun _ => h) 0 1234

/-- C3: `connect` succeeds — moving the handle to `CONNECTING` and issuing
one connect command tagged with the handle's id — exactly from
`DISCONNECTED`; from `CONNECTING` or `CONNECTED` (in particular right
after a successful `connect` on the same handle) it throws
`'Socket is already bound'` and issues no command; and from
`DISCONNECTED` a valid option set does succeed. -/
theorem connect_only_from_disconnected (s : Socket) (opts opts2 : ConnectOptions) :
    (s.state ≠ ConnState.disconnected →
        s.connect opts = Except.error JsError.alreadyBound)
    ∧ (∀ s1 cmds, s.connect opts = Except.ok (s1, cmds) →
        s.state = ConnState.disconnected
        ∧ s1 = { s with state := ConnState.connecting }
        ∧ cmds = [Cmd.connect s.id (hostOf opts) (portForCmd opts.port)])
    ∧ (∀ s1 cmds, s.connect opts = Except.ok (s1, cmds) →
        s1.connect opts2 = Except.error JsError.alreadyBound)
    ∧ (s.state = ConnState.disconnected →
        s.connect (optsWithPort (JSVal.num 80)) =
          Except.ok ({ s with state := ConnState.connecting },
            [Cmd.connect s.id "localhost" 80])) := by
  have h1 : s.state ≠ ConnState.disconnected →
      s.connect opts = Except.error JsError.alreadyBound := by
    intro h
    simp [Socket.connect, h]
  have h2 : ∀ s1 cmds, s.connect opts = Except.ok (s1, cmds) →
      s.state = ConnState.disconnected
      ∧ s1 = { s with state := ConnState.connecting }
      ∧ cmds = [Cmd.connect s.id (hostOf opts) (portForCmd opts.port)] := by
    intro s1 cmds h
    by_cases hs : s.state = ConnState.disconnected
    · refine ⟨hs, ?_⟩
      unfold Socket.connect at h
      rw [if_neg (fun hc => hc hs)] at h
      split at h
      · exact absurd h (by simp)
      split at h
      · exact absurd h (by simp)
      split at h
      · exact absurd h (by simp)
      split at h
      · exact absurd h (by simp)
      simp only [Except.ok.injEq, Prod.mk.injEq] at h
      exact ⟨h.1.symm, h.2.symm⟩
    · rw [h1 hs] at h
      exact absurd h (by simp)
  refine ⟨h1, h2, ?_, ?_⟩
  · intro s1 cmds h
    obtain ⟨hs, hs1, -⟩ := h2 s1 cmds h
    rw [hs1]
    simp [Socket.connect]
  · intro hs
    have hleg : isLegalPort (JSVal.num 80) = true := by decide
    have hpc : portForCmd (JSVal.num 80) = 80 := by decide
    have hho : hostOf (ConnectOptions.mk (JSVal.num 80) none JSVal.undefined JSVal.undefined) = "localhost" := by
      decide
    simp [Socket.connect, hs, optsWithPort, hleg, hpc, hho, isNumOrStr, jsTruthy]

/-- C3 (witness): from a fresh (disconnected) handle, `connect` succeeds;
the resulting handle refuses a second `connect`. -/
theorem connect_only_from_disconnected_witness :
    sock0.connect (optsWithPort (JSVal.num 80)) =
      Except.ok ({ sock0 with state := ConnState.connecting },
        [Cmd.connect 1 "localhost" 80])
    ∧ ({ sock0 with state := ConnState.connecting } : Socket).connect
        (optsWithPort (JSVal.num 80)) = Except.error JsError.alreadyBound :=
  ⟨(connect_only_from_disconnected sock0 (optsWithPort (JSVal.num 80))
      (optsWithPort (JSVal.num 80))).2.2.2 rfl,
   (connect_only_from_disconnected sock0 (optsWithPort (JSVal.num 80))
      (optsWithPort (JSVal.num 80))).2.2.1
      { sock0 with state := ConnState.connecting }
      [Cmd.connect 1 "localhost" 80]
      ((connect_only_from_disconnected sock0 (optsWithPort (JSVal.num 80))
        (optsWithPort (JSVal.num 80))).2.2.2 rfl)⟩

/-- C4: `write` throws `'Socket is not connected.'` exactly when
`DISCONNECTED`; otherwise a string / buffer / byte-array payload is
accepted — `write` returns `true` immediately and issues exactly one
write command carrying the wire-encoded payload — and any other payload
throws `'invalid message format'`. -/
theorem write_path (s : Socket) (p : Payload) :
    (s.state = ConnState.disconnected →
        s.write p = Except.error JsError.notConnected)
    ∧ (s.state ≠ ConnState.disconnected → ∀ enc, encodePayload p = some enc →
        s.write p = Except.ok (s, [Cmd.write s.id enc], true))
    ∧ (s.state ≠ ConnState.disconnected → encodePayload p = none →
        s.write p = Except.error JsError.invalidFormat)
    ∧ (encodePayload p = none ↔ p = Payload.other) := by
  refine ⟨?_, ?_, ?_, ?_⟩
  · intro h
    simp [Socket.write, h]
  · intro h enc he
    simp [Socket.write, h, he]
  · intro h he
    simp [Socket.write, h, he]
  · cases p <;> simp [encodePayload]

/-- C4 (witness): on a connected handle a string payload is accepted and
wire-encoded, a disconnected handle throws, and an unencodable payload
throws a format error. -/
theorem write_path_witness :
    connSock.write (Payload.str "hi")
      = Except.ok (connSock, [Cmd.write 1 (base64StrEncode "hi")], true)
    ∧ sock0.write (Payload.str "hi") = Except.error JsError.notConnected
    ∧ connSock.write Payload.other = Except.error JsError.invalidFormat :=
  ⟨(write_path connSock (Payload.str "hi")).2.1 (by decide)
      (base64StrEncode "hi") rfl,
   (write_path sock0 (Payload.str "hi")).1 rfl,
   (write_path connSock Payload.other).2.2.1 (by decide) rfl⟩

/-- C5: a first `destroy` (or a successful `end`) marks the handle
destroyed, and on a destroyed handle both `destroy` and `end` are
complete no-ops — no state change, no second destroy/end command, no
second subscription removal. -/
theorem destroy_end_idempotent (s t : Socket) (d d2 : Option Payload) :
    ((s.destroy.1).destroyed = true)
    ∧ (∀ s1 cmds, s.«end» d = Except.ok (s1, cmds) → s1.destroyed = true)
    ∧ (t.destroyed = true →
        t.destroy = (t, [])
        ∧ t.«end» d2 = Except.ok (t, [])) := by
  refine ⟨?_, ?_, ?_⟩
  · by_cases h : s.destroyed <;> simp [Socket.destroy, h]
  · intro s1 cmds h
    by_cases hd : s.destroyed
    · unfold Socket.«end» at h
      rw [if_pos hd] at h
      simp only [Except.ok.injEq, Prod.mk.injEq] at h
      rw [← h.1]
      exact hd
    · unfold Socket.«end» at h
      rw [if_neg hd] at h
      cases d with
      | none =>
          simp only [Except.ok.injEq, Prod.mk.injEq] at h
          rw [← h.1]
      | some pl =>
          by_cases ht : payloadTruthy pl
          · simp only [ht, if_true] at h
            cases hw : s.write pl with
            | error e =>
                rw [hw] at h
                exact absurd h (by simp)
            | ok r =>
                obtain ⟨r1, wcmds, b⟩ := r
                rw [hw] at h
                simp only [Except.ok.injEq, Prod.mk.injEq] at h
                rw [← h.1]
          · simp only [ht, Bool.false_eq_true, if_false] at h
            simp only [Except.ok.injEq, Prod.mk.injEq] at h
            rw [← h.1]
  · intro h
    constructor
    · simp [Socket.destroy, h]
    · simp [Socket.«end», h]

/-- C5 (witness): a connected handle destroyed once is destroyed, and the
second `destroy` and a later `end` are exact no-ops. -/
theorem destroy_end_idempotent_witness :
    (connSock.destroy.1).destroyed = true
    ∧ connSock.destroy.1.destroy = (connSock.destroy.1, [])
    ∧ connSock.destroy.1.«end» none = Except.ok (connSock.destroy.1, []) :=
  ⟨(destroy_end_idempotent connSock connSock.destroy.1 none none).1,
   ((destroy_end_idempotent connSock connSock.destroy.1 none none).2.2
      (destroy_end_idempotent connSock connSock.destroy.1 none none).1).1,
   ((destroy_end_idempotent connSock connSock.destroy.1 none none).2.2
      (destroy_end_idempotent connSock connSock.destroy.1 none none).1).2⟩

/-- C6: `setTimeout` always leaves the timer armed exactly when
`msecs > 0` (clearing any existing timer), and with `msecs > 0` registers
the supplied callback as a one-shot timeout listener; a fire of an armed
timer emits exactly one timeout Notif value, consumes the one-shot
listeners, clears the timer reference and destroys the handle; a `data`
event disarms the timer, after which the timer callback can no longer
run (a cleared timer does not fire). -/
theorem setTimeout_timeout_behavior (s : Socket) (msecs : Int) (cb : Bool)
    (b64 : String) :
    ((s.setTimeout msecs cb).timerArmed = decide (0 < msecs))
    ∧ (0 < msecs → cb = true →
        (s.setTimeout msecs cb).onceTimeout = s.onceTimeout + 1)
    ∧ (s.timerArmed = true →
        s.timerFire.2.2 = [Notif.timeout]
        ∧ s.timerFire.1.timerArmed = false
        ∧ s.timerFire.1.destroyed = true
        ∧ s.timerFire.1.onceTimeout = 0)
    ∧ ((s.onEvent (TcpEvent.data b64)).1.timerArmed = false)
    ∧ ((s.onEvent (TcpEvent.data b64)).1.timerFire
        = ((s.onEvent (TcpEvent.data b64)).1, [], [])) := by
  refine ⟨?_, ?_, ?_, ?_, ?_⟩
  · by_cases h : 0 < msecs
    · by_cases hc : cb <;> simp [Socket.setTimeout, h, hc]
    · simp [Socket.setTimeout, h]
  · intro h hc
    simp [Socket.setTimeout, h, hc]
  · intro h
    by_cases hd : s.destroyed = true <;>
      simp [Socket.timerFire, h, Socket.destroy, hd]
  · simp [Socket.onEvent]
  · simp [Socket.onEvent, Socket.timerFire]

/-- C6 (witness): arming a 100ms timer on a connected handle with a
callback registers one one-shot listener; firing it emits one timeout and
destroys the handle; a data event on an armed handle disarms it so the
fire is a no-op. -/
theorem setTimeout_timeout_behavior_witness :
    ((connSock.setTimeout 100 true).timerArmed = true)
    ∧ ((connSock.setTimeout 100 true).onceTimeout = 1)
    ∧ ((connSock.setTimeout 100 true).timerFire.2.2 = [Notif.timeout])
    ∧ ((connSock.setTimeout 100 true).timerFire.1.destroyed = true)
    ∧ (((connSock.setTimeout 100 true).onEvent (TcpEvent.data "aGk=")).1.timerFire
        = (((connSock.setTimeout 100 true).onEvent (TcpEvent.data "aGk=")).1, [], [])) :=
  ⟨(setTimeout_timeout_behavior connSock 100 true "aGk=").1,
   (setTimeout_timeout_behavior connSock 100 true "aGk=").2.1 (by decide) rfl,
   ((setTimeout_timeout_behavior (connSock.setTimeout 100 true) 100 true "aGk=").2.2.1
      (setTimeout_timeout_behavior connSock 100 true "aGk=").1).1,
   ((setTimeout_timeout_behavior (connSock.setTimeout 100 true) 100 true "aGk=").2.2.1
      (setTimeout_timeout_behavior connSock 100 true "aGk=").1).2.2.1,
   (setTimeout_timeout_behavior (connSock.setTimeout 100 true) 100 true "aGk=").2.2.2.2⟩

/-- C7: `end` on a destroyed handle does nothing; on a live handle with no
data it marks destroyed, removes the subscription and issues exactly one
end command; on a live handle with (truthy) data whose write is accepted
it issues the write's command first and then exactly one end command,
marking destroyed and unsubscribing. -/
theorem end_behavior (s : Socket) (d : Payload) :
    (s.destroyed = true → ∀ data, s.«end» data = Except.ok (s, []))
    ∧ (s.destroyed = false →
        s.«end» none =
          Except.ok ({ s with destroyed := true, subscribed := false },
            [Cmd.endCmd s.id]))
    ∧ (s.destroyed = false → payloadTruthy d = true →
        ∀ s1 wcmds b, s.write d = Except.ok (s1, wcmds, b) →
          s.«end» (some d) =
            Except.ok ({ s1 with destroyed := true, subscribed := false },
              wcmds ++ [Cmd.endCmd s1.id])) := by
  refine ⟨?_, ?_, ?_⟩
  · intro h data
    simp [Socket.«end», h]
  · intro h
    simp [Socket.«end», h]
  · intro h ht s1 wcmds b hw
    simp [Socket.«end», h, ht, hw]

/-- C7 (witness): `end` with the string `"hi"` on a connected live handle
writes first and then ends; `end` on the destroyed result does nothing. -/
theorem end_behavior_witness :
    connSock.«end» (some (Payload.str "hi")) =
      Except.ok ({ connSock with destroyed := true, subscribed := false },
        [Cmd.write 1 (base64StrEncode "hi"), Cmd.endCmd 1])
    ∧ ({ connSock with destroyed := true, subscribed := false } : Socket).«end» none
        = Except.ok ({ connSock with destroyed := true, subscribed := false }, []) :=
  ⟨(end_behavior connSock (Payload.str "hi")).2.2 rfl rfl connSock
      [Cmd.write 1 (base64StrEncode "hi")] true rfl,
   (end_behavior { connSock with destroyed := true, subscribed := false }
      (Payload.str "hi")).1 rfl none⟩

/-- C8 (counterexample): a handle allocated from an empty process state
gets its id pushed into `usedIds`; after the handle is fully released
(destroyed and its subscription removed) its id is still in `usedIds` —
release does not remove it. -/
theorem usedIds_kept_after_destroy :
    createClient { usedIds := [] } (fun _ => 5) 1
      = some ({ usedIds := [5] }, mkClientSocket 5)
    ∧ (destroyProc { usedIds := [5] } (mkClientSocket 5).1).2.1.destroyed = true
    ∧ (destroyProc { usedIds := [5] } (mkClientSocket 5).1).2.1.subscribed = false
    ∧ (mkClientSocket 5).1.id
        ∈ (destroyProc { usedIds := [5] } (mkClientSocket 5).1).1.usedIds :=
  ⟨rfl, rfl, rfl, by decide⟩

/-- C8 (amended): the constructor pushes the allocated id onto the
process-wide `usedIds`, but neither `destroy` nor `end` ever removes an
id: the set only grows, a released handle's id stays assigned forever,
and while an id is in the set the allocation loop can never return it
again. -/
theorem usedIds_never_released (p : ProcState) (s : Socket)
    (d : Option Payload) :
    ((destroyProc p s).1 = p)
    ∧ (∀ p1 s1 cmds, endProc p s d = Except.ok (p1, (s1, cmds)) → p1 = p)
    ∧ (∀ draws fuel p1 s1 cmds,
        createClient p draws fuel = some (p1, (s1, cmds)) →
          p1.usedIds = p.usedIds ++ [s1.id])
    ∧ (∀ draws k fuel i, allocateId draws p.usedIds k fuel = some i →
        i ∉ p.usedIds) := by
  refine ⟨rfl, ?_, ?_, ?_⟩
  · intro p1 s1 cmds h
    unfold endProc at h
    cases he : s.«end» d with
    | error e =>
        rw [he] at h
        exact absurd h (by simp)
    | ok r =>
        rw [he] at h
        simp only [Except.ok.injEq, Prod.mk.injEq] at h
        exact h.1.symm
  · intro draws fuel p1 s1 cmds h
    unfold createClient at h
    cases ha : allocateId draws p.usedIds 0 fuel with
    | none =>
        rw [ha] at h
        exact absurd h (by simp)
    | some i =>
        rw [ha] at h
        simp only [Option.some.injEq, Prod.mk.injEq, mkClientSocket] at h
        obtain ⟨h1, h2, h3⟩ := h
        rw [← h1, ← h2]
  · intro draws k fuel i
    induction fuel generalizing k with
    | zero =>
        intro h
        exact absurd h (by simp [allocateId])
    | succ n ih =>
        intro h
        simp only [allocateId] at h
        by_cases hc : p.usedIds.contains (draws k) = true
        · rw [if_pos hc] at h
          exact ih (k + 1) h
        · rw [if_neg hc] at h
          simp only [Option.some.injEq] at h
          intro hm
          rw [← h] at hm
          exact hc (List.elem_eq_true_of_mem hm)

/-- C8 (witness): the amended theorem at a two-element process state:
destroy keeps `usedIds` intact, and an id the loop hands out (3, after
retrying past the used draws 1 and 2) was not in the used set. -/
theorem usedIds_never_released_witness :
    ((destroyProc { usedIds := [1, 2] } (mkClientSocket 1).1).1
      = ({ usedIds := [1, 2] } : ProcState))
    ∧ (3 : Nat) ∉ ({ usedIds := [1, 2] } : ProcState).usedIds :=
  ⟨(usedIds_never_released { usedIds := [1, 2] } (mkClientSocket 1).1 none).1,
   (usedIds_never_released { usedIds := [1, 2] } (mkClientSocket 1).1 none).2.2.2
     (fun k => k + 1) 0 3 3 (by decide)⟩

/-- C9 (counterexample): a handle that went `Connected` through its
connect event and is then torn down (destroyed, or receiving `close`)
still has `readable = writable = true` — teardown does not reset them. -/
theorem readable_writable_survive_teardown :
    connSock.destroy.1.destroyed = true
    ∧ connSock.destroy.1.readable = true
    ∧ connSock.destroy.1.writable = true
    ∧ (connSock.onEvent TcpEvent.close).1.state = ConnState.disconnected
    ∧ (connSock.onEvent TcpEvent.close).1.readable = true
    ∧ (connSock.onEvent TcpEvent.close).1.writable = true :=
  ⟨rfl, rfl, rfl, rfl, rfl, rfl⟩

/-- C9 (amended): `readable` and `writable` are both false from
construction (client- and native-created handles alike) until the
`connect` event, which sets both true; no later step — `data`, `close` or
`error` events, `destroy`, or a successful `end` — ever changes them
again, so they stay true after teardown. -/
theorem readable_writable_lifecycle (s : Socket) (n : Nat)
    (a f b64 m : String) (p : Int) (d : Option Payload) :
    ((mkClientSocket n).1.readable = false
      ∧ (mkClientSocket n).1.writable = false)
    ∧ ((mkNativeSocket n).1.readable = false
      ∧ (mkNativeSocket n).1.writable = false)
    ∧ ((s.onEvent (TcpEvent.connect a p f)).1.readable = true
      ∧ (s.onEvent (TcpEvent.connect a p f)).1.writable = true
      ∧ (s.onEvent (TcpEvent.connect a p f)).1.state = ConnState.connected)
    ∧ ((s.onEvent (TcpEvent.data b64)).1.readable = s.readable
      ∧ (s.onEvent (TcpEvent.data b64)).1.writable = s.writable)
    ∧ ((s.onEvent TcpEvent.close).1.readable = s.readable
      ∧ (s.onEvent TcpEvent.close).1.writable = s.writable)
    ∧ ((s.onEvent (TcpEvent.error m)).1.readable = s.readable
      ∧ (s.onEvent (TcpEvent.error m)).1.writable = s.writable)
    ∧ (s.destroy.1.readable = s.readable ∧ s.destroy.1.writable = s.writable)
    ∧ (∀ s1 cmds, s.«end» d = Except.ok (s1, cmds) →
        s1.readable = s.readable ∧ s1.writable = s.writable) := by
  refine ⟨⟨rfl, rfl⟩, ⟨rfl, rfl⟩, ⟨rfl, rfl, rfl⟩, ⟨rfl, rfl⟩, ⟨rfl, rfl⟩,
    ⟨rfl, rfl⟩, ?_, ?_⟩
  · by_cases h : s.destroyed = true <;> simp [Socket.destroy, h]
  · intro s1 cmds h
    have hf := end_ok_frame s d s1 cmds h
    exact ⟨hf.2.2.1, hf.2.2.2.1⟩

/-- C9 (witness): the amended theorem at a fresh handle and at a
connected-then-ended handle. -/
theorem readable_writable_lifecycle_witness :
    (mkClientSocket 1).1.readable = false
    ∧ (connSock.onEvent (TcpEvent.connect "10.0.0.1" 80 "IPv4")).1.writable = true
    ∧ (∀ s1 cmds,
        connSock.«end» none = Except.ok (s1, cmds) → s1.readable = connSock.readable) :=
  ⟨(readable_writable_lifecycle sock0 1 "a" "f" "b" "m" 0 none).1.1,
   (readable_writable_lifecycle connSock 1 "10.0.0.1" "IPv4" "b" "m" 80 none).2.2.1.2.1,
   fun s1 cmds h =>
     ((readable_writable_lifecycle connSock 1 "a" "f" "b" "m" 0 none).2.2.2.2.2.2.2
       s1 cmds h).1⟩

/-- C10: `destroy` changes only `destroyed` and the subscription — the
state machine state, `readable`, `writable`, id, timer and remote fields
all survive — and likewise for a successful `end`; consequently a
connected handle still accepts `write` after `destroy`: no throw, returns
`true`, and a write command for the destroyed handle's id is issued. -/
theorem destroy_end_frame (s : Socket) (d : Option Payload) (p : Payload) :
    (s.destroy.1.state = s.state
      ∧ s.destroy.1.readable = s.readable
      ∧ s.destroy.1.writable = s.writable
      ∧ s.destroy.1.id = s.id
      ∧ s.destroy.1.timerArmed = s.timerArmed
      ∧ s.destroy.1.onceTimeout = s.onceTimeout
      ∧ s.destroy.1.remoteAddress = s.remoteAddress
      ∧ s.destroy.1.remotePort = s.remotePort
      ∧ s.destroy.1.remoteFamily = s.remoteFamily)
    ∧ (∀ s1 cmds, s.«end» d = Except.ok (s1, cmds) →
        s1.state = s.state ∧ s1.readable = s.readable
        ∧ s1.writable = s.writable ∧ s1.id = s.id
        ∧ s1.timerArmed = s.timerArmed)
    ∧ (s.state = ConnState.connected → ∀ enc, encodePayload p = some enc →
        s.destroy.1.write p
          = Except.ok (s.destroy.1, [Cmd.write s.id enc], true)) := by
  have hframe : s.destroy.1.state = s.state ∧ s.destroy.1.id = s.id := by
    by_cases h : s.destroyed = true <;> simp [Socket.destroy, h]
  refine ⟨?_, ?_, ?_⟩
  · by_cases h : s.destroyed = true <;> simp [Socket.destroy, h]
  · intro s1 cmds h
    have hf := end_ok_frame s d s1 cmds h
    exact ⟨hf.2.1, hf.2.2.1, hf.2.2.2.1, hf.1, hf.2.2.2.2.1⟩
  · intro hc enc he
    have h1 : ¬(s.destroy.1.state = ConnState.disconnected) := by
      rw [hframe.1, hc]
      intro hx
      cases hx
    rw [show ([Cmd.write s.id enc]) = [Cmd.write s.destroy.1.id enc] by
      rw [hframe.2]]
    simp [Socket.write, h1, he]

/-- C10 (witness): a connected handle, destroyed, still accepts a string
write and issues the write command for its id. -/
theorem destroy_end_frame_witness :
    connSock.destroy.1.state = connSock.state
    ∧ connSock.destroy.1.write (Payload.str "hi")
        = Except.ok (connSock.destroy.1, [Cmd.write 1 (base64StrEncode "hi")], true) :=
  ⟨(destroy_end_frame connSock none (Payload.str "hi")).1.1,
   (destroy_end_frame connSock none (Payload.str "hi")).2.2 rfl
     (base64StrEncode "hi") rfl⟩
